import Mathlib

/-!
Verification of the systemd log-pattern diagnostic engine of
diagnostics/systemd/systemd.go: the rule model, the journal scanner
matchLogsSinceLastStart, the rule catalog unitLogSpecs, and the
dependency checker unitRequiresUnit together with the UnitStatus
diagnostic.  The Go code emits findings through the log package;
here every emission is accumulated in an explicit state, and the
external journal stream is a list of raw lines consumed in order
(journalctl -r hands them over newest first).
-/

set_option autoImplicit false
set_option maxRecDepth 40000

namespace SD

/-- Log severity, from log.Level: Error 0, Warn 1, Info 2, Debug 3.
Only the numeric rank matters to the diagnostics code. -/
structure Level where
  level : Nat
deriving DecidableEq, Repr

def ErrorLevel : Level := ⟨0⟩

def WarnLevel : Level := ⟨1⟩

def InfoLevel : Level := ⟨2⟩

def DebugLevel : Level := ⟨3⟩

/-- One message handed to the log sink: severity, stable id, and the
log.Msg key/value fields.  Template texts are rendered inline (the Go
templates substitute the same values); long interpretation prose is
abbreviated to its first sentence, which no theorem inspects. -/
structure Finding where
  Level : Level
  Id : String
  Msg : List (String × String)
deriving DecidableEq, Repr

/-- State threaded through a diagnostic run: the findings emitted so far
(in emission order) and the package-level map tlsClientErrorSeen from
systemd.go line 56 (none models the nil Go map before first use;
some models an initialized map, kept as the list of seen clients). -/
structure ScanState where
  findings : List Finding
  tlsClientErrorSeen : Option (List String)
deriving DecidableEq, Repr

/-- Append one finding to the sink (log.Log / log.Warnm / log.Errorm). -/
def emitFinding (st : ScanState) (lv : Level) (id : String)
    (msg : List (String × String)) : ScanState :=
  { st with findings := st.findings ++ [⟨lv, id, msg⟩] }

/-- logEntry from systemd.go line 14: a parsed journal record. -/
structure logEntry where
  Message : String
deriving DecidableEq, Repr

/-- logMatcher from systemd.go line 18.  The compiled Regexp is carried
as its FindStringSubmatch function: none when the message does not
match, some submatches when it does.  Interpret is the optional custom
handler; it receives the scan state (standing for the mutable
environment, the package-level seen map and the log sink that the Go
closure reaches directly) and returns the updated state together with
the KeepAfterMatch decision. -/
structure logMatcher where
  Regexp : String → Option (List String)
  Level : Level
  Id : String
  Interpretation : String
  KeepAfterMatch : Bool
  Interpret : Option (ScanState → logEntry → List String → ScanState × Bool)

/-- unitSpec from systemd.go line 31.  StartMatch is the compiled start
regex carried as its MatchString function. -/
structure unitSpec where
  Name : String
  StartMatch : String → Bool
  LogMatchers : List logMatcher

/-- Prelude of every static finding, from the Sprintf at systemd.go
line 450 (the quotes around the unit name are dropped). -/
def foundMsgText (name msg : String) : String :=
  "Found " ++ name ++ " journald log message:\n  " ++ msg ++ "\n"

/-- The finding emitted for a matcher without a custom handler,
systemd.go line 451. -/
def staticFinding (unitName : String) (m : logMatcher) (e : logEntry) : Finding :=
  ⟨m.Level, m.Id,
    [("text", foundMsgText unitName e.Message ++ m.Interpretation),
     ("unit", unitName), ("logMsg", e.Message)]⟩

/-- What happens when matcher m has matched entry e with submatches
strs: systemd.go lines 446 to 452.  With a custom handler the handler
runs and its boolean replaces KeepAfterMatch; otherwise one static
finding is emitted and KeepAfterMatch stands. -/
def matchStep (unitName : String) (m : logMatcher) (e : logEntry)
    (strs : List String) (st : ScanState) : ScanState × Bool :=
  match m.Interpret with
  | some f => f st e strs
  | none =>
      ({ st with findings := st.findings ++ [staticFinding unitName m e] },
       m.KeepAfterMatch)

/-- The inner matcher walk of systemd.go lines 443 to 458: the working
copy is traversed in order; the first matcher whose Regexp matches the
message fires via matchStep, is removed when the keep decision is
false, and the walk stops.  Returns the updated working copy and
state. -/
def runMatchers (unitName : String) (e : logEntry) :
    List logMatcher → ScanState → List logMatcher × ScanState
  | [], st => ([], st)
  | m :: rest, st =>
      match m.Regexp e.Message with
      | some strs =>
          let s := matchStep unitName m e strs st
          (if s.2 then m :: rest else rest, s.1)
      | none =>
          let r := runMatchers unitName e rest st
          (m :: r.1, r.2)

/-- The debug note emitted when a raw journal line fails JSON decoding,
systemd.go line 437 (template rendered inline, without apostrophe). -/
def badJSONFinding (line err : String) : Finding :=
  ⟨DebugLevel, "sdLogBadJSON",
    [("message", line), ("error", err),
     ("tmpl", "Could not read the JSON for this log message:\n" ++ line
        ++ "\nGot error " ++ err)]⟩

/-- The scanning loop of matchLogsSinceLastStart, systemd.go lines 431
to 460.  parse stands for json.Unmarshal of a raw journalctl line into
a logEntry (Except.error carries the decode error text).  Each line in
order: if the working copy is empty the scan stops; a line that fails
to parse yields one debug note and the scan continues; a parsed entry
matching StartMatch stops the scan; otherwise the working copy is
walked by runMatchers and the loop continues with the updated copy. -/
def scanLoop (unit : unitSpec) (parse : String → Except String logEntry) :
    List String → List logMatcher → ScanState → ScanState
  | [], _, st => st
  | line :: rest, matchCopy, st =>
      if matchCopy.isEmpty then st
      else
        match parse line with
        | .error err =>
            scanLoop unit parse rest matchCopy
              { st with findings := st.findings ++ [badJSONFinding line err] }
        | .ok entry =>
            if unit.StartMatch entry.Message then st
            else
              let r := runMatchers unit.Name entry matchCopy st
              scanLoop unit parse rest r.1 r.2

/-- matchLogsSinceLastStart, systemd.go line 405: scan the journal
lines of one unit against a fresh working copy of the catalog matcher
list (the append copy at line 430). -/
def matchLogsSinceLastStart (unit : unitSpec)
    (parse : String → Except String logEntry)
    (lines : List String) (st : ScanState) : ScanState :=
  scanLoop unit parse lines unit.LogMatchers st

/-!
A small total matcher for the regular expressions of the catalog.  Each
pattern of systemd.go is a sequence of single-character items, greedy
stars and greedy pluses of single-character classes, and capture
groups whose contents are again such sequences.  Capture groups are
transparent for recognition, so a pattern is embedded as a flat list
of atoms.  Recognition is existence of a match, which is independent
of greediness, so the star case simply tries every count of class
characters up to the maximal run.
-/

/-- One regex atom: a single-character class, or a Kleene star or plus
of a single-character class. -/
inductive Atom where
  | one (p : Char → Bool)
  | star (p : Char → Bool)
  | plus (p : Char → Bool)

/-- Does the atom sequence match some prefix of the character list? -/
def matchesHere : List Atom → List Char → Bool
  | [], _ => true
  | .one _ :: _, [] => false
  | .one p :: rest, c :: s => p c && matchesHere rest s
  | .star p :: rest, s =>
      (List.range ((s.takeWhile p).length + 1)).any
        fun i => matchesHere rest (s.drop i)
  | .plus _ :: _, [] => false
  | .plus p :: rest, c :: s =>
      p c &&
      (List.range ((s.takeWhile p).length + 1)).any
        fun i => matchesHere rest (s.drop i)

/-- Does the atom sequence match starting at some position (Go regexps
are unanchored)? -/
def matchesWithin (atoms : List Atom) : List Char → Bool
  | [] => matchesHere atoms []
  | c :: rest => matchesHere atoms (c :: rest) || matchesWithin atoms rest

/-- Regexp.MatchString for an embedded pattern. -/
def reMatches (atoms : List Atom) (s : String) : Bool :=
  matchesWithin atoms s.data

/-- Regexp.FindStringSubmatch for a matcher whose submatch texts no
code path ever reads (every catalog matcher except the TLS one): the
Go call returns a non-nil slice exactly when the pattern matches, and
the repository only tests that slice against nil, so the witness list
is left empty. -/
def reFind (atoms : List Atom) (s : String) : Option (List String) :=
  if reMatches atoms s then some [] else none

/-- Literal text as a sequence of single-character atoms. -/
def lits (s : String) : List Atom :=
  s.data.map fun c => Atom.one fun x => x == c

/-- Go regex dot: any character except newline. -/
def anyc : Char → Bool := fun c => !(c == '\n')

/-- Class for backslash-uppercase-w: any character outside
[0-9A-Za-z_]. -/
def nonword : Char → Bool := fun c => !(c.isAlphanum || c == '_')

/-- Class for backslash-uppercase-s: any character outside the RE2
whitespace class (tab, newline, form feed, carriage return, space). -/
def nonspace : Char → Bool := fun c =>
  !(c == ' ' || c == '\t' || c == '\n' || c == '\x0c' || c == '\r')

/-- Class for the bracket class of digits and dot in the TLS pattern. -/
def ipdot : Char → Bool := fun c => c.isDigit || c == '.'

/-- Strip a literal character sequence from the front of a list. -/
def dropLit : List Char → List Char → Option (List Char)
  | [], s => some s
  | _ :: _, [] => none
  | c :: cs, x :: xs => if x == c then dropLit cs xs else none

/-!
FindStringSubmatch for the TLS bad-certificate pattern of systemd.go
line 84, which is the one matcher whose submatches are read (the
handler takes matches[1], the client address).  The pattern is the
literal text, then a captured nonempty run of the digits-and-dot
class, a colon, a nonempty digit run, and more literal text.  Maximal
munch coincides with the leftmost-first Go semantics here: the
character after a maximal class run is by construction outside the
class, so no shorter run can be followed by the required colon.
-/

/-- Try the TLS pattern anchored at the front; on success return the
matched text and the captured client address. -/
def tlsAt (s : List Char) : Option (List String) :=
  match dropLit ("http: TLS handshake error from ").data s with
  | none => none
  | some s1 =>
      let run := s1.takeWhile ipdot
      if run.isEmpty then none
      else
        match s1.drop run.length with
        | ':' :: s3 =>
            let ds := s3.takeWhile Char.isDigit
            if ds.isEmpty then none
            else
              match dropLit (": remote error: bad certificate").data
                  (s3.drop ds.length) with
              | some s4 =>
                  some [String.mk (s.take (s.length - s4.length)),
                        String.mk run]
              | none => none
        | _ => none

/-- Leftmost search for the TLS pattern. -/
def tlsSearch : List Char → Option (List String)
  | [] => none
  | c :: rest =>
      match tlsAt (c :: rest) with
      | some r => some r
      | none => tlsSearch rest

/-- FindStringSubmatch of the TLS bad-certificate regex. -/
def tlsFindStringSubmatch (msg : String) : Option (List String) :=
  tlsSearch msg.data

/-!
The rule catalog of systemd.go lines 42 to 262.  Every regex literal
below is transcribed from the Go source; note that the patterns the Go
source writes inside raw (backtick) strings keep their double
backslashes, so there a double backslash denotes a literal backslash
character in the text being matched.  Interpretation prose is
abbreviated to its first sentence; no theorem inspects it.
-/

/-- badImageTemplate, systemd.go line 42.  Raw-string regex: literal
text, dot-star, literal text ending in a literal backslash, a group of
MISSING plus a literal backslash. -/
def badImageTemplate : logMatcher :=
  ⟨reFind (lits "Unable to find an image for " ++ [Atom.star anyc]
      ++ lits " due to an error processing the format: %!v\\MISSING\\"),
   InfoLevel, "",
   "This error indicates openshift was given the flag --images including an invalid format variable.",
   false, none⟩

/-- Full-explanation text of the TLS handler (first sentence of
systemd.go lines 93 to 130). -/
def tlsFullText : String :=
  "This error indicates that a client attempted to connect to the master HTTPS API server but broke off the connection because the master certificate is not validated by a certificate authority acceptable to the client."

/-- Abbreviated note of the TLS handler, systemd.go line 134. -/
def tlsAbbrevText : String :=
  "This message was diagnosed above, but for a different client address."

/-- The full-explanation Warn finding of the TLS handler, systemd.go
line 92. -/
def tlsFullFinding (e : logEntry) (client : String) : Finding :=
  ⟨WarnLevel, "sdLogOMreBadCert",
    [("client", client),
     ("text", foundMsgText "openshift-master" e.Message ++ tlsFullText)]⟩

/-- The abbreviated Warn finding of the TLS handler, systemd.go
line 133. -/
def tlsAbbrevFinding (e : logEntry) (client : String) : Finding :=
  ⟨WarnLevel, "sdLogOMreBadCert",
    [("client", client),
     ("text", foundMsgText "openshift-master" e.Message ++ tlsAbbrevText)]⟩

/-- The custom Interpret handler of the TLS bad-certificate matcher,
systemd.go lines 86 to 137.  client is matches[1].  When the seen map
is still nil it is initialized to the singleton of this client and the
full explanation is emitted; a client not yet seen is added and gets
the abbreviated note; a repeat client emits nothing.  The handler
always returns true, so the matcher is kept for the whole scan. -/
def tlsInterpret (st : ScanState) (e : logEntry) (ms : List String) :
    ScanState × Bool :=
  let client := ms.getD 1 ""
  match st.tlsClientErrorSeen with
  | none =>
      ({ findings := st.findings ++ [tlsFullFinding e client],
         tlsClientErrorSeen := some [client] }, true)
  | some seen =>
      if seen.contains client then (st, true)
      else
        ({ findings := st.findings ++ [tlsAbbrevFinding e client],
           tlsClientErrorSeen := some (seen ++ [client]) }, true)

/-- The openshift-master unit spec, systemd.go lines 60 to 160. -/
def openshiftMasterSpec : unitSpec :=
  ⟨"openshift-master",
   reMatches (lits "Starting an OpenShift master"),
   [badImageTemplate,
    ⟨reFind (lits "Unable to decode an event from the watch stream: local error: unexpected message"),
     InfoLevel, "sdLogOMIgnore",
     "You can safely ignore this message.",
     false, none⟩,
    ⟨reFind (lits "HTTP probe error: Get " ++ [Atom.star anyc]
        ++ lits "/healthz: dial tcp " ++ [Atom.star anyc]
        ++ lits ":10250: connection refused"),
     InfoLevel, "sdLogOMhzRef",
     "The OpenShift master does a health check on nodes that are defined in its records, and this is the result when the node is not available yet.",
     false, none⟩,
    ⟨tlsFindStringSubmatch,
     WarnLevel, "",
     "",
     false, some tlsInterpret⟩,
    ⟨reFind (lits "system:anonymous" ++ [Atom.star nonword]
        ++ lits "system:unauthenticated" ++ [Atom.star nonword]
        ++ lits "/api/v1beta1/services?namespace="),
     WarnLevel, "sdLogOMunauthNode",
     "This indicates the OpenShift API server received an unscoped request to get Services, and the request was unauthenticated and denied.",
     false, none⟩]⟩

/-- The openshift-sdn-master unit spec, systemd.go lines 161 to 165. -/
def openshiftSdnMasterSpec : unitSpec :=
  ⟨"openshift-sdn-master",
   reMatches (lits "Starting OpenShift SDN Master"),
   []⟩

/-- The openshift-node unit spec, systemd.go lines 166 to 198. -/
def openshiftNodeSpec : unitSpec :=
  ⟨"openshift-node",
   reMatches (lits "Starting an OpenShift node"),
   [badImageTemplate,
    ⟨reFind (lits "Unable to load services: Get http" ++ [Atom.plus nonspace]
        ++ lits "/api/v1beta1/services?namespace=): " ++ [Atom.plus anyc]),
     ErrorLevel, "sdLogONconnMaster",
     "openshift-node could not connect to the OpenShift master API in order to determine its responsibilities.",
     false, none⟩,
    ⟨reFind (lits "Unable to load services: request" ++ [Atom.star anyc]
        ++ lits "403 Forbidden: Forbidden: \"/api/v1beta1/services?namespace=\" denied by default"),
     ErrorLevel, "sdLogONMasterForbids",
     "openshift-node could not connect to the OpenShift master API to determine its responsibilities because it lacks the proper credentials.",
     false, none⟩]⟩

/-- The openshift-sdn-node unit spec, systemd.go lines 199 to 229. -/
def openshiftSdnNodeSpec : unitSpec :=
  ⟨"openshift-sdn-node",
   reMatches (lits "Starting OpenShift SDN node"),
   [⟨reFind (lits "Could not find an allocated subnet for this minion"
        ++ [Atom.star anyc] ++ lits "Waiting"
        ++ [Atom.one anyc, Atom.one anyc]),
     WarnLevel, "sdLogOSNnoSubnet",
     "This warning occurs when openshift-sdn-node is trying to request the SDN subnet it should be configured with, but cannot.",
     false, none⟩]⟩

/-- The docker unit spec, systemd.go lines 230 to 256.  Both matcher
regexes come from raw Go strings: the double backslashes there denote
literal backslash characters, so sdLogDbadOpt requires a literal
backslash before its one-character bracket class, and sdLogDfatal
requires the literal text backslash-s around the fatal marker. -/
def dockerSpec : unitSpec :=
  ⟨"docker",
   reMatches (lits "Starting Docker Application Container Engine"
      ++ [Atom.one anyc]),
   [⟨reFind (lits "Usage: docker \\"
        ++ [Atom.one fun c => ("OPTIONS\\").contains c]
        ++ lits " COMMAND"),
     ErrorLevel, "sdLogDbadOpt",
     "This indicates that docker failed to parse its command line successfully, so it just printed a standard usage message and exited.",
     false, none⟩,
    ⟨reFind (lits "\\slevel=\"fatal\"\\s"),
     ErrorLevel, "sdLogDfatal",
     "This is not a known problem, but it is causing Docker to crash, so the OpenShift node will not work on this host until it is resolved.",
     false, none⟩]⟩

/-- The openvswitch unit spec, systemd.go lines 257 to 261. -/
def openvswitchSpec : unitSpec :=
  ⟨"openvswitch",
   reMatches (lits "Starting Open vSwitch"),
   []⟩

/-- unitLogSpecs, systemd.go line 59: the shared rule catalog. -/
def unitLogSpecs : List unitSpec :=
  [openshiftMasterSpec, openshiftSdnMasterSpec, openshiftNodeSpec,
   openshiftSdnNodeSpec, dockerSpec, openvswitchSpec]

/-!
The dependency checker: types.SystemdUnit, unitRequiresUnit
(systemd.go lines 368 to 403) and the UnitStatus diagnostic Run
function (systemd.go lines 293 to 361).  The snapshot map from unit
name to status is embedded as an association list; Go map lookup of an
absent key yields the zero value, whose fields are all false and whose
name is empty.
-/

/-- Modelled from the spec: types.SystemdUnit is defined outside the
available sources; per the spec the unit runtime snapshot carries
exists, enabled and active booleans per unit name, and the code also
reads a Name field for messages. -/
structure SystemdUnit where
  Name : String
  Exists : Bool
  Enabled : Bool
  Active : Bool
deriving DecidableEq, Repr

/-- Go map access env.SystemdUnits[name]: the entry, or the zero value
when absent. -/
def lookupUnit (u : List (String × SystemdUnit)) (k : String) : SystemdUnit :=
  match u.find? fun p => p.1 == k with
  | some p => p.2
  | none => ⟨"", false, false, false⟩

/-- The tier-one Error finding of systemd.go line 370: the required
unit is not loaded at all; the remedy installs it. -/
def reqLoadedFinding (unit requires : SystemdUnit) (reason : String) : Finding :=
  ⟨ErrorLevel, "sdUnitReqLoaded",
    [("tmpl", "systemd unit " ++ unit.Name ++ " depends on unit "
        ++ requires.Name ++ ", which is not loaded. " ++ reason
        ++ " An administrator probably needs to install the unit with: yum install "
        ++ requires.Name),
     ("unit", unit.Name), ("required", requires.Name), ("reason", reason)]⟩

/-- The tier-two Error finding of systemd.go line 382: the required
unit is not running; the remedy starts it. -/
def reqActiveFinding (unit requires : SystemdUnit) (reason : String) : Finding :=
  ⟨ErrorLevel, "sdUnitReqActive",
    [("tmpl", "systemd unit " ++ unit.Name ++ " is running but "
        ++ requires.Name ++ " is not. " ++ reason
        ++ " An administrator can start the unit with: systemctl start "
        ++ requires.Name),
     ("unit", unit.Name), ("required", requires.Name), ("reason", reason)]⟩

/-- The tier-three Warn finding of systemd.go line 395: the required
unit will not auto-start at boot; the remedy enables it. -/
def reqEnabledFinding (unit requires : SystemdUnit) (reason : String) : Finding :=
  ⟨WarnLevel, "sdUnitReqEnabled",
    [("tmpl", "systemd unit " ++ unit.Name
        ++ " is enabled to run automatically at boot, but " ++ requires.Name
        ++ " is not. " ++ reason
        ++ " An administrator can enable the unit with: systemctl enable "
        ++ requires.Name),
     ("unit", unit.Name), ("required", requires.Name), ("reason", reason)]⟩

/-- unitRequiresUnit, systemd.go lines 368 to 403: tiered pairwise
dependency check, first matching tier only.  Template texts are
rendered inline; each carries the remediation command that names the
required unit. -/
def unitRequiresUnit (unit requires : SystemdUnit) (reason : String) :
    List Finding :=
  if (unit.Active || unit.Enabled) && !requires.Exists then
    [reqLoadedFinding unit requires reason]
  else if unit.Active && !requires.Active then
    [reqActiveFinding unit requires reason]
  else if unit.Enabled && !requires.Enabled then
    [reqEnabledFinding unit requires reason]
  else []

/-- The generic finding of the blanket sweep, systemd.go line 348:
emitted through log.Errorm, hence at Error level. -/
def inactiveFinding (name : String) : Finding :=
  ⟨ErrorLevel, "sdUnitInactive",
    [("tmpl", "The " ++ name
        ++ " systemd unit is intended to start at boot but is not currently active. An administrator can start the unit with: systemctl start "
        ++ name),
     ("unit", name)]⟩

/-- The blanket sweep of systemd.go lines 345 to 359: every snapshot
unit that is enabled but not active yields one generic finding. -/
def sweep : List (String × SystemdUnit) → List Finding
  | [] => []
  | (name, unit) :: rest =>
      (if unit.Enabled && !unit.Active then [inactiveFinding name] else [])
        ++ sweep rest

/-- The special-cased pair of systemd.go lines 330 to 344:
openshift-sdn-node running without openshift-node is an Error. -/
def sdnNodeSpecialCheck (u : List (String × SystemdUnit)) : List Finding :=
  if (lookupUnit u "openshift-sdn-node").Active
      && !(lookupUnit u "openshift-node").Active then
    [⟨ErrorLevel, "sdUnitSDNreqSN",
      [("text", "systemd unit openshift-sdn-node is running but openshift-node is not. Normally openshift-sdn-node starts openshift-node once initialized. An administrator can start openshift-node with: systemctl start openshift-node")]⟩]
  else []

/-- Rationale texts of the pairwise checks (first sentences). -/
def reasonIptables : String :=
  "iptables is used by OpenShift nodes for container networking. Connections to a container will fail without it."

def reasonDocker : String :=
  "OpenShift nodes use Docker to run containers."

def reasonNodeSdn : String :=
  "The software-defined network enables networking between containers on different nodes. If it is not running, containers on different nodes will not be able to connect to each other."

def reasonSdnMasterMaster : String :=
  "The software-defined network enables networking between containers on different nodes, coordinated via openshift-sdn-master. It does not make sense to run this service unless the host is operating as an OpenShift master."

def reasonMasterSdnMaster : String :=
  "The software-defined network enables networking between containers on different nodes. openshift-sdn-master is required to provision the SDN subnets."

def reasonSdnNodeOvs : String :=
  "The software-defined network enables networking between containers on different nodes. Containers will not be able to connect to each other without the openvswitch service carrying this traffic."

/-- The Run function of the UnitStatus diagnostic, systemd.go lines
296 to 360: the eight pairwise checks in source order, then the
special-cased sdn-node pair, then the blanket sweep over the whole
snapshot. -/
def unitStatusRun (u : List (String × SystemdUnit)) : List Finding :=
  unitRequiresUnit (lookupUnit u "openshift-node") (lookupUnit u "iptables")
      reasonIptables
    ++ unitRequiresUnit (lookupUnit u "openshift-node") (lookupUnit u "docker")
      reasonDocker
    ++ unitRequiresUnit (lookupUnit u "openshift-node")
      (lookupUnit u "openshift-sdn-node") reasonNodeSdn
    ++ unitRequiresUnit (lookupUnit u "openshift-sdn-master")
      (lookupUnit u "openshift-master") reasonSdnMasterMaster
    ++ unitRequiresUnit (lookupUnit u "openshift-master")
      (lookupUnit u "openshift-sdn-master") reasonMasterSdnMaster
    ++ unitRequiresUnit (lookupUnit u "openshift-sdn-node")
      (lookupUnit u "openvswitch") reasonSdnNodeOvs
    ++ unitRequiresUnit (lookupUnit u "openshift") (lookupUnit u "docker")
      reasonDocker
    ++ unitRequiresUnit (lookupUnit u "openshift") (lookupUnit u "iptables")
      reasonIptables
    ++ sdnNodeSpecialCheck u
    ++ sweep u

/-- Is this finding the generic enabled-but-inactive finding for the
named unit? -/
def isInactiveFor (name : String) (f : Finding) : Bool :=
  f.Id == "sdUnitInactive" && f.Msg.any fun p => p.1 == "unit" && p.2 == name

/-!
Fixtures for concrete instantiations: an identity decoder (a journal
line whose JSON decodes with MESSAGE equal to the raw line), a failing
decoder, small test matchers, and the concrete snapshots and log lines
of the spec scenarios.
-/

/-- A decoder for which every raw line parses into an entry carrying
the line as its message. -/
def parseOk : String → Except String logEntry := fun s => .ok ⟨s⟩

/-- A decoder for which every raw line fails JSON decoding. -/
def parseFail : String → Except String logEntry :=
  fun _ => .error "invalid character"

/-- Test matcher that matches nothing. -/
def mNever : logMatcher :=
  ⟨fun _ => none, InfoLevel, "never", "no interpretation", false, none⟩

/-- Test matcher that matches exactly the message boom, is not kept
after matching, and has no custom handler. -/
def mOnce : logMatcher :=
  ⟨fun s => if s == "boom" then some ["boom"] else none,
   WarnLevel, "once", "transient test matcher", false, none⟩

/-- Test matcher that matches exactly the message boom and is kept
after matching. -/
def mKeep : logMatcher :=
  ⟨fun s => if s == "boom" then some ["boom"] else none,
   WarnLevel, "keep", "persistent test matcher", true, none⟩

/-- Test unit with no start boundary and the two boom matchers. -/
def testUnit : unitSpec :=
  ⟨"test", fun _ => false, [mNever, mOnce]⟩

/-- The empty initial state: no findings, seen map still nil. -/
def st0 : ScanState := ⟨[], none⟩

/-- The newest-first docker log stream of spec scenario A. -/
def scenarioA : List String :=
  ["level=\"fatal\" ...",
   "Starting Docker Application Container Engine.",
   "level=\"fatal\" .."]

/-- Scenario B log lines: TLS bad-certificate messages from two
distinct clients. -/
def tlsLine5 : String :=
  "http: TLS handshake error from 10.0.0.5:443: remote error: bad certificate"

def tlsLine6 : String :=
  "http: TLS handshake error from 10.0.0.6:443: remote error: bad certificate"

/-- A message matched by the badImageTemplate regex as the Go source
compiles it (the raw-string double backslashes demand literal
backslash characters around MISSING). -/
def imgLine : String :=
  "Unable to find an image for ruby-20 due to an error processing the format: %!v\\MISSING\\"

/-- Scenario C units: an active and enabled dependent, and a required
unit that does not exist. -/
def depC : SystemdUnit := ⟨"openshift-node", true, true, true⟩

def reqC : SystemdUnit := ⟨"docker", false, false, false⟩

/-- Scenario D snapshot: one unit, enabled but not active, untouched
by any pairwise rule. -/
def uC5 : List (String × SystemdUnit) := [("foo", ⟨"foo", true, true, false⟩)]

/-!
Theorems.
-/

/-- Helper: walking the working copy fires the first matching matcher
only.  When every matcher of pre fails on the message and m matches,
the walk returns exactly the state produced by the one matchStep of m,
keeps pre untouched, removes m exactly when the keep decision is
false, and returns post unexamined. -/
theorem runMatchers_first (name : String) (e : logEntry)
    (pre post : List logMatcher) (m : logMatcher) (strs : List String)
    (st : ScanState)
    (hpre : ∀ m' ∈ pre, m'.Regexp e.Message = none)
    (hm : m.Regexp e.Message = some strs) :
    runMatchers name e (pre ++ m :: post) st
      = (pre ++ (if (matchStep name m e strs st).2 then m :: post else post),
         (matchStep name m e strs st).1) := by
  induction pre with
  | nil => simp only [List.nil_append, runMatchers, hm]
  | cons a pre ih =>
      have ha := hpre a (List.mem_cons_self a pre)
      have ih2 := ih fun m' hm' => hpre m' (List.mem_cons_of_mem a hm')
      simp only [List.cons_append, runMatchers, ha, List.append_eq, ih2]

/-- Helper: the scan of any stream that has reached a parsed boundary
line is the scan of the lines before it: the scan stops at or before
the boundary, no matcher fires on the boundary entry, and nothing
after it is read. -/
theorem scanLoop_boundary (unit : unitSpec)
    (parse : String → Except String logEntry) (pre post : List String)
    (bline : String) (e : logEntry) (mc : List logMatcher) (st : ScanState)
    (hp : parse bline = .ok e) (hb : unit.StartMatch e.Message = true) :
    scanLoop unit parse (pre ++ bline :: post) mc st
      = scanLoop unit parse pre mc st := by
  induction pre generalizing mc st with
  | nil =>
      simp only [List.nil_append, scanLoop, hp, hb, if_true]
      cases mc.isEmpty <;> simp
  | cons l pre ih =>
      simp only [List.cons_append, scanLoop]
      cases hmc : mc.isEmpty with
      | true => rfl
      | false =>
          cases hpl : parse l with
          | error err => simp [ih]
          | ok entry =>
              cases hsb : unit.StartMatch entry.Message with
              | true => simp [hsb]
              | false => simp [hsb, ih]

/-- C1: for every log stream, the scan of a unit stops at or before the
first successfully parsed entry whose message matches the start
boundary: a stream decomposed around a parsed boundary line scans to
the same state as its strict prefix, so no matcher fires on the
boundary entry or on anything read after it. -/
theorem c1_boundary_cutoff (unit : unitSpec)
    (parse : String → Except String logEntry) (pre post : List String)
    (bline : String) (e : logEntry) (st : ScanState)
    (hp : parse bline = .ok e) (hb : unit.StartMatch e.Message = true) :
    matchLogsSinceLastStart unit parse (pre ++ bline :: post) st
      = matchLogsSinceLastStart unit parse pre st :=
  scanLoop_boundary unit parse pre post bline e unit.LogMatchers st hp hb

/-- Witness for C1: the docker boundary line cuts the scenario stream;
everything after it is irrelevant to the scan. -/
theorem c1_boundary_cutoff_witness :
    parseOk "Starting Docker Application Container Engine."
        = .ok ⟨"Starting Docker Application Container Engine."⟩
    ∧ dockerSpec.StartMatch "Starting Docker Application Container Engine."
        = true
    ∧ matchLogsSinceLastStart dockerSpec parseOk
        (["level=\"fatal\" ..."]
          ++ "Starting Docker Application Container Engine." :: ["older line"])
        st0
      = matchLogsSinceLastStart dockerSpec parseOk ["level=\"fatal\" ..."] st0 :=
  ⟨rfl, by decide,
   c1_boundary_cutoff dockerSpec parseOk ["level=\"fatal\" ..."] ["older line"]
     "Starting Docker Application Container Engine."
     ⟨"Starting Docker Application Container Engine."⟩ st0 rfl (by decide)⟩

/-- C2: at most one matcher fires per entry.  The working copy is
walked in order; with every matcher of pre failing on the message and
m matching, the walk performs exactly the single matchStep of m: the
state is updated once, pre is kept, and post is returned unchanged and
unexamined, so no later matcher is checked against this entry. -/
theorem c2_first_match_wins (name : String) (e : logEntry)
    (pre post : List logMatcher) (m : logMatcher) (strs : List String)
    (st : ScanState)
    (hpre : ∀ m' ∈ pre, m'.Regexp e.Message = none)
    (hm : m.Regexp e.Message = some strs) :
    runMatchers name e (pre ++ m :: post) st
      = (pre ++ (if (matchStep name m e strs st).2 then m :: post else post),
         (matchStep name m e strs st).1) :=
  runMatchers_first name e pre post m strs st hpre hm

/-- Witness for C2: on the message boom, the walk over mNever, mOnce,
mKeep fires mOnce alone and never reaches mKeep. -/
theorem c2_first_match_wins_witness :
    runMatchers "test" ⟨"boom"⟩ ([mNever] ++ mOnce :: [mKeep]) st0
      = ([mNever]
          ++ (if (matchStep "test" mOnce ⟨"boom"⟩ ["boom"] st0).2
              then mOnce :: [mKeep] else [mKeep]),
         (matchStep "test" mOnce ⟨"boom"⟩ ["boom"] st0).1) :=
  c2_first_match_wins "test" ⟨"boom"⟩ [mNever] [mKeep] mOnce ["boom"] st0
    (by intro m' h; rw [List.mem_singleton] at h; subst h; rfl) (by decide)

/-- C3: the keep decision after a matcher fires is the custom handler
return when a handler is present and KeepAfterMatch otherwise; a
matcher whose decision is false is removed from the working copy
handed to the rest of the scan, so it is never evaluated against a
later entry, while a matcher whose decision is true stays in place. -/
theorem c3_keep_decision (unit : unitSpec)
    (parse : String → Except String logEntry) (line : String)
    (rest : List String) (e : logEntry) (pre post : List logMatcher)
    (m : logMatcher) (strs : List String) (st : ScanState)
    (hp : parse line = .ok e)
    (hb : unit.StartMatch e.Message = false)
    (hpre : ∀ m' ∈ pre, m'.Regexp e.Message = none)
    (hm : m.Regexp e.Message = some strs) :
    (scanLoop unit parse (line :: rest) (pre ++ m :: post) st
      = scanLoop unit parse rest
          (if (matchStep unit.Name m e strs st).2 then pre ++ m :: post
           else pre ++ post)
          (matchStep unit.Name m e strs st).1)
    ∧ (matchStep unit.Name m e strs st).2
        = (match m.Interpret with
           | some f => (f st e strs).2
           | none => m.KeepAfterMatch) := by
  constructor
  · have hne : (pre ++ m :: post).isEmpty = false := by
      cases pre <;> rfl
    simp only [scanLoop, hne, hp, hb,
      runMatchers_first unit.Name e pre post m strs st hpre hm]
    cases (matchStep unit.Name m e strs st).2 <;> simp
  · cases hI : m.Interpret with
    | none => simp [matchStep, hI]
    | some f => simp [matchStep, hI]

/-- Witness for C3: mOnce fires on boom with no handler and
KeepAfterMatch false, so the scan of the remaining lines proceeds with
mOnce removed from the working copy. -/
theorem c3_keep_decision_witness :
    (scanLoop testUnit parseOk ("boom" :: ["boom"]) ([mNever] ++ mOnce :: []) st0
      = scanLoop testUnit parseOk ["boom"]
          (if (matchStep "test" mOnce ⟨"boom"⟩ ["boom"] st0).2
           then [mNever] ++ mOnce :: [] else [mNever] ++ [])
          (matchStep "test" mOnce ⟨"boom"⟩ ["boom"] st0).1)
    ∧ (matchStep "test" mOnce ⟨"boom"⟩ ["boom"] st0).2
        = (match mOnce.Interpret with
           | some f => (f st0 ⟨"boom"⟩ ["boom"]).2
           | none => mOnce.KeepAfterMatch) :=
  c3_keep_decision testUnit parseOk "boom" ["boom"] ⟨"boom"⟩ [mNever] []
    mOnce ["boom"] st0 rfl rfl
    (by intro m' h; rw [List.mem_singleton] at h; subst h; rfl) (by decide)

/-- C4: once the working copy is empty the scan reads and evaluates
nothing further: for every remaining stream the state is returned
untouched. -/
theorem c4_empty_copy_stops (unit : unitSpec)
    (parse : String → Except String logEntry) (lines : List String)
    (st : ScanState) :
    scanLoop unit parse lines [] st = st := by
  cases lines with
  | nil => rfl
  | cons l rest => rfl

/-- C10: a raw line that fails JSON decoding adds exactly the one
debug-level sdLogBadJSON note and the scan continues on the remaining
lines with the working copy untouched: no matcher fires on it and the
scan does not stop there.  The raw text of the line is arbitrary, so
this holds in particular for a line whose raw text matches the start
boundary: boundary detection only ever sees parsed entries. -/
theorem c10_bad_json (unit : unitSpec)
    (parse : String → Except String logEntry) (line err : String)
    (rest : List String) (mc : List logMatcher) (st : ScanState)
    (hp : parse line = .error err)
    (hmc : mc.isEmpty = false) :
    scanLoop unit parse (line :: rest) mc st
      = scanLoop unit parse rest mc
          { st with findings := st.findings ++ [badJSONFinding line err] } := by
  simp only [scanLoop, hmc, hp]
  rfl

/-- Witness for C10: a line whose raw text is exactly the docker start
boundary but which fails JSON decoding does not stop the scan; it only
yields the debug note, and scanning continues. -/
theorem c10_bad_json_witness :
    parseFail "Starting Docker Application Container Engine."
        = .error "invalid character"
    ∧ dockerSpec.StartMatch "Starting Docker Application Container Engine."
        = true
    ∧ scanLoop dockerSpec parseFail
        ("Starting Docker Application Container Engine." :: ["x"])
        dockerSpec.LogMatchers st0
      = scanLoop dockerSpec parseFail ["x"] dockerSpec.LogMatchers
          { st0 with findings := st0.findings
              ++ [badJSONFinding "Starting Docker Application Container Engine."
                    "invalid character"] } :=
  ⟨rfl, by decide,
   c10_bad_json dockerSpec parseFail
     "Starting Docker Application Container Engine." "invalid character"
     ["x"] dockerSpec.LogMatchers st0 rfl (by decide)⟩

/-- Helper: no pairwise dependency finding is the generic
enabled-but-inactive finding. -/
theorem filter_unitRequires (a b : SystemdUnit) (r name : String) :
    (unitRequiresUnit a b r).filter (isInactiveFor name) = [] := by
  unfold unitRequiresUnit
  split_ifs <;> rfl

/-- Helper: the special-cased sdn-node finding is not the generic
enabled-but-inactive finding either. -/
theorem filter_special (u : List (String × SystemdUnit)) (name : String) :
    (sdnNodeSpecialCheck u).filter (isInactiveFor name) = [] := by
  unfold sdnNodeSpecialCheck
  split_ifs <;> rfl

/-- Helper: the generic finding for unit k is recognized as the one
for unit name exactly when the names agree. -/
theorem isInactiveFor_inactiveFinding (name k : String) :
    isInactiveFor name (inactiveFinding k) = (k == name) := by
  simp [isInactiveFor, inactiveFinding]

/-- Helper: a snapshot containing no entry for the named unit sweeps
to no generic finding for it. -/
theorem sweep_filter_absent (name : String) :
    ∀ u : List (String × SystemdUnit), (∀ p ∈ u, p.1 ≠ name) →
      (sweep u).filter (isInactiveFor name) = []
  | [], _ => rfl
  | (k, v) :: rest, h => by
      have hk : (k == name) = false :=
        beq_eq_false_iff_ne.mpr (h (k, v) (List.mem_cons_self _ _))
      have ih := sweep_filter_absent name rest
        fun p hp => h p (List.mem_cons_of_mem _ hp)
      simp only [sweep, List.filter_append, ih, List.append_nil]
      cases hc : v.Enabled && !v.Active with
      | false => simp
      | true => simp [List.filter_cons, isInactiveFor_inactiveFinding, hk]

/-- Helper: a snapshot with unique keys containing an enabled,
inactive unit sweeps to exactly its one generic finding. -/
theorem sweep_filter_found (name : String) (unit : SystemdUnit) :
    ∀ u : List (String × SystemdUnit),
      (u.map Prod.fst).Nodup → (name, unit) ∈ u →
      unit.Enabled = true → unit.Active = false →
      (sweep u).filter (isInactiveFor name) = [inactiveFinding name]
  | [], _, hmem, _, _ => absurd hmem (List.not_mem_nil _)
  | (k, v) :: rest, hnd, hmem, he, ha => by
      rw [List.map_cons, List.nodup_cons] at hnd
      cases List.mem_cons.mp hmem with
      | inl heq =>
          injection heq with h1 h2
          subst h1
          subst h2
          have habs := sweep_filter_absent name rest fun p hp hpe => by
            have hmm : p.1 ∈ rest.map Prod.fst := List.mem_map_of_mem Prod.fst hp
            exact hnd.1 (hpe ▸ hmm)
          simp only [sweep, List.filter_append, habs, List.append_nil, he, ha]
          simp [List.filter_cons, isInactiveFor_inactiveFinding]
      | inr hmem' =>
          have hmm : name ∈ rest.map Prod.fst :=
            List.mem_map_of_mem Prod.fst hmem'
          have hk : (k == name) = false := beq_eq_false_iff_ne.mpr fun hkn =>
            hnd.1 (hkn ▸ hmm)
          have ih := sweep_filter_found name unit rest hnd.2 hmem' he ha
          simp only [sweep, List.filter_append, ih]
          cases hc : v.Enabled && !v.Active with
          | false => simp
          | true => simp [List.filter_cons, isInactiveFor_inactiveFinding, hk]

/-- Counterexample to C5 as stated: the blanket-sweep finding for an
enabled-but-inactive unit is emitted through log.Errorm, so its level
is Error, not the Warn level the claim asserts. -/
theorem c5_sweep_counterexample :
    ((unitStatusRun uC5).filter (isInactiveFor "foo")).map Finding.Level
        = [ErrorLevel]
    ∧ ErrorLevel ≠ WarnLevel := by decide

/-- C5 amended: for every unit of a snapshot with unique names that is
enabled but not active, the UnitStatus run emits exactly one generic
sdUnitInactive finding for that unit, at Error level (the code uses
log.Errorm), independent of and in addition to the pairwise
dependency findings, which are filtered out untouched. -/
theorem c5_blanket_sweep (u : List (String × SystemdUnit))
    (name : String) (unit : SystemdUnit)
    (hnd : (u.map Prod.fst).Nodup) (hmem : (name, unit) ∈ u)
    (he : unit.Enabled = true) (ha : unit.Active = false) :
    (unitStatusRun u).filter (isInactiveFor name) = [inactiveFinding name]
    ∧ (inactiveFinding name).Level = ErrorLevel := by
  constructor
  · unfold unitStatusRun
    simp only [List.filter_append, filter_unitRequires, filter_special,
      List.nil_append]
    exact sweep_filter_found name unit u hnd hmem he ha
  · rfl

/-- Witness for C5 amended: the scenario D snapshot. -/
theorem c5_blanket_sweep_witness :
    (unitStatusRun uC5).filter (isInactiveFor "foo") = [inactiveFinding "foo"]
    ∧ (inactiveFinding "foo").Level = ErrorLevel :=
  c5_blanket_sweep uC5 "foo" ⟨"foo", true, true, false⟩ (by decide) (by decide)
    rfl rfl

/-- C6: checkDependency evaluates its tiers in strict order and only
the first matching tier emits: a missing required unit under an active
or enabled dependent yields exactly the one Error install finding and
suppresses the lower tiers; otherwise an inactive required unit under
an active dependent yields exactly the one Error start finding;
otherwise a disabled required unit under an enabled dependent yields
exactly the one Warn enable finding; otherwise nothing. -/
theorem c6_tier_order (dep req : SystemdUnit) (reason : String) :
    (((dep.Active || dep.Enabled) && !req.Exists) = true →
       unitRequiresUnit dep req reason = [reqLoadedFinding dep req reason])
    ∧ (((dep.Active || dep.Enabled) && !req.Exists) = false →
        (dep.Active && !req.Active) = true →
        unitRequiresUnit dep req reason = [reqActiveFinding dep req reason])
    ∧ (((dep.Active || dep.Enabled) && !req.Exists) = false →
        (dep.Active && !req.Active) = false →
        (dep.Enabled && !req.Enabled) = true →
        unitRequiresUnit dep req reason = [reqEnabledFinding dep req reason])
    ∧ (((dep.Active || dep.Enabled) && !req.Exists) = false →
        (dep.Active && !req.Active) = false →
        (dep.Enabled && !req.Enabled) = false →
        unitRequiresUnit dep req reason = []) := by
  refine ⟨fun h1 => ?_, fun h1 h2 => ?_, fun h1 h2 h3 => ?_,
    fun h1 h2 h3 => ?_⟩
  · simp [unitRequiresUnit, h1]
  · simp [unitRequiresUnit, h1, h2]
  · simp [unitRequiresUnit, h1, h2, h3]
  · simp [unitRequiresUnit, h1, h2, h3]

/-- Witness for C6, spec scenario C: dependent active and enabled,
required unit absent: exactly one finding, the Error-level install
one. -/
theorem c6_tier_order_witness :
    unitRequiresUnit depC reqC reasonDocker
        = [reqLoadedFinding depC reqC reasonDocker]
    ∧ (reqLoadedFinding depC reqC reasonDocker).Level = ErrorLevel
    ∧ (reqLoadedFinding depC reqC reasonDocker).Id = "sdUnitReqLoaded" :=
  ⟨(c6_tier_order depC reqC reasonDocker).1 (by decide), rfl, rfl⟩

/-- Counterexample to C7 as stated: on the scenario A stream the scan
does not produce one sdLogDfatal finding for the first line; it
produces no finding at all.  The sdLogDfatal pattern comes from a raw
Go string whose double backslashes compile to a literal backslash-s
around the fatal marker, which the line does not contain; and even the
evidently intended whitespace-class form could not match this line,
which has no character at all before level=. -/
theorem c7_docker_scenario_counterexample :
    ((matchLogsSinceLastStart dockerSpec parseOk scenarioA st0).findings.map
        Finding.Id) ≠ ["sdLogDfatal"] := by decide

/-- C7 amended: on the scenario A stream the scan emits no finding for
the first line, stops at the second line because it matches the start
boundary, and never reads the third line.  The last two conjuncts
exhibit the escaping slip in the catalog: a realistic fatal log line
with whitespace around the marker does not fire the matcher, while a
line carrying literal backslash-s text does. -/
theorem c7_docker_scenario :
    (matchLogsSinceLastStart dockerSpec parseOk scenarioA st0).findings = []
    ∧ matchLogsSinceLastStart dockerSpec parseOk scenarioA st0
        = matchLogsSinceLastStart dockerSpec parseOk (scenarioA.take 2) st0
    ∧ (matchLogsSinceLastStart dockerSpec parseOk
        ["time=x level=\"fatal\" msg=y"] st0).findings = []
    ∧ ((matchLogsSinceLastStart dockerSpec parseOk
        ["abc \\slevel=\"fatal\"\\s xyz"] st0).findings.map Finding.Id)
        = ["sdLogDfatal"] := by decide

/-- C8: the TLS bad-certificate handler lazily initializes the shared
seen set and emits the full explanation on the first match of the run,
emits the abbreviated different-client note for a later match with an
unseen client, emits nothing for an already-seen client, and returns
keep true in every case; scanning the master catalog on the scenario B
stream yields the full then the abbreviated Warn finding. -/
theorem c8_tls_handler :
    (∀ (st : ScanState) (e : logEntry) (ms : List String),
        st.tlsClientErrorSeen = none →
        tlsInterpret st e ms
          = ({ findings := st.findings ++ [tlsFullFinding e (ms.getD 1 "")],
               tlsClientErrorSeen := some [ms.getD 1 ""] }, true))
    ∧ (∀ (st : ScanState) (e : logEntry) (ms : List String)
          (seen : List String),
        st.tlsClientErrorSeen = some seen →
        seen.contains (ms.getD 1 "") = false →
        tlsInterpret st e ms
          = ({ findings := st.findings ++ [tlsAbbrevFinding e (ms.getD 1 "")],
               tlsClientErrorSeen := some (seen ++ [ms.getD 1 ""]) }, true))
    ∧ (∀ (st : ScanState) (e : logEntry) (ms : List String)
          (seen : List String),
        st.tlsClientErrorSeen = some seen →
        seen.contains (ms.getD 1 "") = true →
        tlsInterpret st e ms = (st, true))
    ∧ matchLogsSinceLastStart openshiftMasterSpec parseOk
        [tlsLine5, tlsLine6] st0
      = ⟨[tlsFullFinding ⟨tlsLine5⟩ "10.0.0.5",
          tlsAbbrevFinding ⟨tlsLine6⟩ "10.0.0.6"],
         some ["10.0.0.5", "10.0.0.6"]⟩ := by
  refine ⟨?_, ?_, ?_, by decide⟩
  · intro st e ms h
    simp [tlsInterpret, h]
  · intro st e ms seen h hc
    simp only [tlsInterpret, h]
    rw [hc]
    simp
  · intro st e ms seen h hc
    simp only [tlsInterpret, h]
    rw [hc]
    simp

/-- Witness for C8: the three handler cases at concrete states. -/
theorem c8_tls_handler_witness :
    tlsInterpret st0 ⟨"m"⟩ ["w", "10.0.0.9"]
        = ({ findings := st0.findings ++ [tlsFullFinding ⟨"m"⟩ "10.0.0.9"],
             tlsClientErrorSeen := some ["10.0.0.9"] }, true)
    ∧ tlsInterpret ⟨[], some ["10.0.0.9"]⟩ ⟨"m"⟩ ["w", "10.0.0.8"]
        = ({ findings := [] ++ [tlsAbbrevFinding ⟨"m"⟩ "10.0.0.8"],
             tlsClientErrorSeen := some (["10.0.0.9"] ++ ["10.0.0.8"]) }, true)
    ∧ tlsInterpret ⟨[], some ["10.0.0.9"]⟩ ⟨"m"⟩ ["w", "10.0.0.9"]
        = (⟨[], some ["10.0.0.9"]⟩, true) :=
  ⟨c8_tls_handler.1 st0 ⟨"m"⟩ ["w", "10.0.0.9"] rfl,
   c8_tls_handler.2.1 ⟨[], some ["10.0.0.9"]⟩ ⟨"m"⟩ ["w", "10.0.0.8"]
     ["10.0.0.9"] rfl (by decide),
   c8_tls_handler.2.2.1 ⟨[], some ["10.0.0.9"]⟩ ⟨"m"⟩ ["w", "10.0.0.9"]
     ["10.0.0.9"] rfl (by decide)⟩

/-- C9: scanning never mutates the shared catalog.  Every scan starts
from the full catalog matcher list of its unit (the per-scan working
copy), and the scan state carries findings and the seen set only, so
retiring a matcher in one scan cannot reach another.  Concretely, the
badImageTemplate matcher is shared by value between the master and
node specs; after it fires once and is retired inside a master scan
(the second identical line no longer fires it), a subsequent node scan
continuing from the resulting state still starts with it and fires
it again. -/
theorem c9_catalog_immutable :
    (∀ (unit : unitSpec) (parse : String → Except String logEntry)
        (lines : List String) (st : ScanState),
        matchLogsSinceLastStart unit parse lines st
          = scanLoop unit parse lines unit.LogMatchers st)
    ∧ badImageTemplate ∈ openshiftMasterSpec.LogMatchers
    ∧ badImageTemplate ∈ openshiftNodeSpec.LogMatchers
    ∧ (matchLogsSinceLastStart openshiftMasterSpec parseOk
          [imgLine, imgLine] st0).findings
        = [staticFinding "openshift-master" badImageTemplate ⟨imgLine⟩]
    ∧ (matchLogsSinceLastStart openshiftNodeSpec parseOk [imgLine]
          (matchLogsSinceLastStart openshiftMasterSpec parseOk
            [imgLine, imgLine] st0)).findings
        = [staticFinding "openshift-master" badImageTemplate ⟨imgLine⟩,
           staticFinding "openshift-node" badImageTemplate ⟨imgLine⟩] := by
  refine ⟨fun _ _ _ _ => rfl, List.mem_cons_self _ _, List.mem_cons_self _ _,
    by decide, by decide⟩

end SD

